import Mathlib

/-!
Shallow embedding of the "I'm in a meeting" Chrome extension
(background coordinator, Hue device client, storage layer, Meet detector),
together with theorems checking the natural-language specification.

The embedding follows the current iteration of the source:
`background.js` (tri-state STATUS handler), the tri-state content script,
`lib/hue-api.js` and `lib/storage.js`.  Asynchronous device and storage
I/O is made explicit: handlers take the device's replies as an
environment argument and return, besides the new session state, the
ordered list of observable effects (broadcasts, device reads/writes,
snapshot writes/clears).
-/

namespace Meeting

/-- STATUS_TYPES from storage.js: the tri-state status enum. -/
inductive Status where
  | noStatus
  | warning
  | inMeeting
deriving DecidableEq, Repr

/-- A light state {on, bri, hue, sat} as read from / written to the bridge. -/
structure LightState where
  «on» : Bool
  bri : ℤ
  hue : ℤ
  sat : ℤ
deriving DecidableEq, Repr

/-- A user-facing color {hue 0-360, sat 0-100, bri 0-100}. -/
structure Color where
  hue : ℚ
  sat : ℚ
  bri : ℚ
deriving DecidableEq, Repr

/-! ## hue-api.js : pure helpers -/

/-- HUE_API.MAX_HUE. -/
def MAX_HUE : ℚ := 65535
/-- HUE_API.MAX_SAT. -/
def MAX_SAT : ℚ := 254
/-- HUE_API.MAX_BRI. -/
def MAX_BRI : ℚ := 254

/-- JavaScript Math.round: round half toward positive infinity. -/
def jsRound (q : ℚ) : ℤ := ⌊q + 1 / 2⌋

/-- hueToApi from hue-api.js: Math.round((hue / 360) * HUE_API.MAX_HUE). -/
def hueToApi (hue : ℚ) : ℤ := jsRound (hue / 360 * MAX_HUE)

/-- percentToApi from hue-api.js: Math.round((percent / 100) * HUE_API.MAX_SAT). -/
def percentToApi (percent : ℚ) : ℤ := jsRound (percent / 100 * MAX_SAT)

/-- JavaScript `ip.split('.')` at the character level. -/
def splitOnDot : List Char → List (List Char)
  | [] => [[]]
  | c :: rest =>
    match splitOnDot rest with
    | [] => [[c]]
    | p :: ps => if c = '.' then [] :: p :: ps else (c :: p) :: ps

/-- parseInt on an all-digit component. -/
def parseDigits (cs : List Char) : ℕ :=
  cs.foldl (fun n c => n * 10 + (c.toNat - 48)) 0

/-- One dotted-quad component: 1 to 3 digit characters whose value is ≤ 255
(the regex `\d{1,3}` plus the numeric check of isValidIp). -/
def isIpPart (cs : List Char) : Bool :=
  1 ≤ cs.length && cs.length ≤ 3 && cs.all Char.isDigit && parseDigits cs ≤ 255

/-- isValidIp from hue-api.js: the string matches
`^(\d{1,3}\.){3}\d{1,3}$` and every component parses to a number ≤ 255. -/
def isValidIp (ip : String) : Bool :=
  let parts := splitOnDot ip.data
  parts.length == 4 && parts.all isIpPart

/-! ## hue-api.js : fetchWithRetry and the HTTP layer

A single `fetch` call either throws (network-level failure) or yields a
response whose parsed JSON body is a payload of type `α`. -/

/-- Outcome of one fetch attempt. -/
inductive FetchOutcome (α : Type) where
  | networkError
  | response (payload : α)
deriving DecidableEq, Repr

/-- RETRY_CONFIG.MAX_RETRIES. -/
def MAX_RETRIES : ℕ := 3
/-- RETRY_CONFIG.BASE_DELAY_MS. -/
def BASE_DELAY_MS : ℕ := 1000

/-- The loop body of fetchWithRetry over the list of outcomes of the
successive attempts (the head is the outcome of attempt number
`attempt`).  Returns (result — `none` models the final throw of
`lastError` —, number of fetch calls made, backoff delays slept in
order).  A successful response returns immediately; a network error on
any attempt but the last sleeps `BASE_DELAY_MS * 2 ^ attempt`. -/
def runAttempts {α : Type} : List (FetchOutcome α) → ℕ → Option α × ℕ × List ℕ
  | [], _ => (none, 0, [])
  | o :: rest, attempt =>
    match o with
    | .response p => (some p, 1, [])
    | .networkError =>
      if rest.isEmpty then (none, 1, [])
      else
        let r := runAttempts rest (attempt + 1)
        (r.1, r.2.1 + 1, BASE_DELAY_MS * 2 ^ attempt :: r.2.2)

/-- fetchWithRetry from hue-api.js, with the outcome of attempt `k`
given by `fetch k`. -/
def fetchWithRetry {α : Type} (fetch : ℕ → FetchOutcome α)
    (retries : ℕ := MAX_RETRIES) : Option α × ℕ × List ℕ :=
  runAttempts ((List.range retries).map fetch) 0

/-- The HueClient constructor state: bridge IP and username. -/
structure HueClient where
  bridgeIp : String
  username : String
deriving DecidableEq, Repr

/-- HueClient.isConfigured. -/
def HueClient.isConfigured (c : HueClient) : Bool :=
  isValidIp c.bridgeIp && c.username != ""

/-- Parsed JSON body of a GET /lights/{id} response:
`hasError` models a truthy `data.error`, `state` a present (truthy)
`data.state`. -/
structure GetPayload where
  hasError : Bool
  state : Option LightState
deriving DecidableEq, Repr

/-- Parsed JSON body of a PUT /lights/{id}/state response:
`errorArray` models `Array.isArray(result) && result[0]?.error`;
any other body is `okPayload`. -/
inductive PutPayload where
  | errorArray
  | okPayload
deriving DecidableEq, Repr

/-- HueClient.getLightState: returns the light state or `none` on any
configuration, network or API error; also reports how many fetch calls
were made and which backoff delays were slept. -/
def HueClient.getLightState (c : HueClient) (lightId : String)
    (fetch : ℕ → FetchOutcome GetPayload) : Option LightState × ℕ × List ℕ :=
  if !c.isConfigured || lightId == "" then (none, 0, [])
  else
    match fetchWithRetry fetch with
    | (none, n, ds) => (none, n, ds)
    | (some data, n, ds) =>
      if data.hasError || data.state.isNone then (none, n, ds)
      else (data.state, n, ds)

/-- HueClient.setLightState: returns `false` on any configuration,
network or API error, `true` on success; also reports fetch calls and
backoff delays. -/
def HueClient.setLightState (c : HueClient) (lightId : String)
    (fetch : ℕ → FetchOutcome PutPayload) : Bool × ℕ × List ℕ :=
  if !c.isConfigured || lightId == "" then (false, 0, [])
  else
    match fetchWithRetry fetch with
    | (none, n, ds) => (false, n, ds)
    | (some .errorArray, n, ds) => (false, n, ds)
    | (some .okPayload, n, ds) => (true, n, ds)

/-! ## storage.js -/

/-- Raw contents of chrome.storage.local: `none` models an absent key. -/
structure LocalState where
  bridgeIp : Option String
  username : Option String
  lightId : Option String
  meetingHue : Option ℚ
  meetingSat : Option ℚ
  meetingBri : Option ℚ
  warningColorEnabled : Option Bool
  warningHue : Option ℚ
  warningSat : Option ℚ
  warningBri : Option ℚ
deriving DecidableEq, Repr

/-- Raw contents of chrome.storage.session: `none` models an absent key. -/
structure SessionState where
  currentMeetingStatus : Option Bool
  currentWarningStatus : Option Bool
  previousLightState : Option LightState
deriving DecidableEq, Repr

/-- DEFAULT_MEETING_COLOR. -/
def DEFAULT_MEETING_COLOR : Color := { hue := 0, sat := 100, bri := 100 }

/-- getBridgeConfig (missing keys default to the empty string). -/
def getBridgeConfig (l : LocalState) : String × String × String :=
  (l.bridgeIp.getD "", l.username.getD "", l.lightId.getD "")

/-- getMeetingColor with defaults applied. -/
def getMeetingColor (l : LocalState) : Color :=
  { hue := l.meetingHue.getD DEFAULT_MEETING_COLOR.hue
    sat := l.meetingSat.getD DEFAULT_MEETING_COLOR.sat
    bri := l.meetingBri.getD DEFAULT_MEETING_COLOR.bri }

/-- getWarningColor with defaults applied (same defaults as meeting). -/
def getWarningColor (l : LocalState) : Color :=
  { hue := l.warningHue.getD DEFAULT_MEETING_COLOR.hue
    sat := l.warningSat.getD DEFAULT_MEETING_COLOR.sat
    bri := l.warningBri.getD DEFAULT_MEETING_COLOR.bri }

/-- getWarningColorEnabled (defaults to false). -/
def getWarningColorEnabled (l : LocalState) : Bool :=
  l.warningColorEnabled.getD false

/-- getMeetingStatus (defaults to false). -/
def getMeetingStatus (s : SessionState) : Bool :=
  s.currentMeetingStatus.getD false

/-- getWarningStatus (defaults to false). -/
def getWarningStatus (s : SessionState) : Bool :=
  s.currentWarningStatus.getD false

/-- setMeetingStatus. -/
def setMeetingStatus (b : Bool) (s : SessionState) : SessionState :=
  { s with currentMeetingStatus := some b }

/-- setWarningStatus. -/
def setWarningStatus (b : Bool) (s : SessionState) : SessionState :=
  { s with currentWarningStatus := some b }

/-- getPreviousLightState (an absent key reads as null). -/
def getPreviousLightState (s : SessionState) : Option LightState :=
  s.previousLightState

/-- savePreviousLightState. -/
def savePreviousLightState (st : LightState) (s : SessionState) : SessionState :=
  { s with previousLightState := some st }

/-- clearPreviousLightState. -/
def clearPreviousLightState (s : SessionState) : SessionState :=
  { s with previousLightState := none }

/-- getStatus from storage.js: the canonical tri-state value composed
from the meeting flag, the warning-enabled flag and the warning flag. -/
def getStatus (l : LocalState) (s : SessionState) : Status :=
  if getMeetingStatus s then Status.inMeeting
  else if getWarningColorEnabled l && getWarningStatus s then Status.warning
  else Status.noStatus

/-! ## background.js : the Coordinator

Each handler performs at most one device read (`getLightState`) and one
device write (`setLightState`).  Their results are supplied by an
environment `Env`; the observable actions are collected in order in a
trace of `Effect`s. -/

/-- Replies of the device for one handler run: `getResult` is what
`hue.client.getLightState` returns, `putResult` what
`hue.client.setLightState` returns. -/
structure Env where
  getResult : Option LightState
  putResult : Bool
deriving DecidableEq, Repr

/-- Observable actions of a Coordinator handler, in execution order. -/
inductive Effect where
  /-- chrome.runtime.sendMessage STATUS_CHANGED (broadcastStatusChange). -/
  | broadcast (s : Status)
  /-- A GET of the light state issued to the bridge. -/
  | deviceGet (lightId : String)
  /-- A PUT of a light state issued to the bridge. -/
  | devicePut (lightId : String) (st : LightState)
  /-- A write of the previous-light-state snapshot (savePreviousLightState). -/
  | savePrev (st : LightState)
  /-- A removal of the previous-light-state snapshot (clearPreviousLightState). -/
  | clearPrev
deriving DecidableEq, Repr

/-- getHueClient's successful result: a configured client plus light id. -/
structure HueRef where
  client : HueClient
  lightId : String
deriving DecidableEq, Repr

/-- getHueClient from background.js: `none` when any of bridgeIp,
username, lightId is missing/empty or the client is not configured. -/
def getHueClient (l : LocalState) : Option HueRef :=
  let (bridgeIp, username, lightId) := getBridgeConfig l
  if bridgeIp == "" || username == "" || lightId == "" then none
  else
    let client : HueClient := { bridgeIp := bridgeIp, username := username }
    if !client.isConfigured then none
    else some { client := client, lightId := lightId }

/-- saveLightState from background.js: read the current light state and
store it as the snapshot; `false` when unconfigured or the read fails. -/
def saveLightState (cfg : LocalState) (env : Env) (s : SessionState) :
    SessionState × List Effect × Bool :=
  match getHueClient cfg with
  | none => (s, [], false)
  | some hue =>
    match env.getResult with
    | none => (s, [Effect.deviceGet hue.lightId], false)
    | some ls =>
      (savePreviousLightState ls s,
       [Effect.deviceGet hue.lightId, Effect.savePrev ls], true)

/-- The api-range state pushed for the configured meeting color. -/
def meetingApiState (cfg : LocalState) : LightState :=
  let c := getMeetingColor cfg
  { «on» := true, hue := hueToApi c.hue, sat := percentToApi c.sat,
    bri := percentToApi c.bri }

/-- The api-range state pushed for the configured warning color. -/
def warningApiState (cfg : LocalState) : LightState :=
  let c := getWarningColor cfg
  { «on» := true, hue := hueToApi c.hue, sat := percentToApi c.sat,
    bri := percentToApi c.bri }

/-- setLightToMeetingColor from background.js. -/
def setLightToMeetingColor (cfg : LocalState) (env : Env) (s : SessionState) :
    SessionState × List Effect × Bool :=
  match getHueClient cfg with
  | none => (s, [], false)
  | some hue =>
    (s, [Effect.devicePut hue.lightId (meetingApiState cfg)], env.putResult)

/-- setLightToWarningColor from background.js. -/
def setLightToWarningColor (cfg : LocalState) (env : Env) (s : SessionState) :
    SessionState × List Effect × Bool :=
  match getHueClient cfg with
  | none => (s, [], false)
  | some hue =>
    (s, [Effect.devicePut hue.lightId (warningApiState cfg)], env.putResult)

/-- restoreLightState from background.js: write the snapshot back to the
light; the snapshot is cleared only when the write succeeds. -/
def restoreLightState (cfg : LocalState) (env : Env) (s : SessionState) :
    SessionState × List Effect × Bool :=
  match getHueClient cfg with
  | none => (s, [], false)
  | some hue =>
    match getPreviousLightState s with
    | none => (s, [], false)
    | some prev =>
      if env.putResult then
        (clearPreviousLightState s,
         [Effect.devicePut hue.lightId prev, Effect.clearPrev], true)
      else
        (s, [Effect.devicePut hue.lightId prev], false)

/-- handleSetInMeeting from background.js.  `savePrev` is the
`savePreviousLightState` boolean computed by the message listener. -/
def handleSetInMeeting (cfg : LocalState) (env : Env) (savePrev : Bool)
    (s : SessionState) : SessionState × List Effect :=
  if getMeetingStatus s then (s, [])
  else
    let s1 := setWarningStatus false (setMeetingStatus true s)
    let tr0 := [Effect.broadcast Status.inMeeting]
    if savePrev then
      let r1 := saveLightState cfg env s1
      if r1.2.2 then
        let r2 := setLightToMeetingColor cfg env r1.1
        (r2.1, tr0 ++ r1.2.1 ++ r2.2.1)
      else (r1.1, tr0 ++ r1.2.1)
    else
      let r2 := setLightToMeetingColor cfg env s1
      (r2.1, tr0 ++ r2.2.1)

/-- handleSetWarning from background.js. -/
def handleSetWarning (cfg : LocalState) (env : Env) (savePrev : Bool)
    (s : SessionState) : SessionState × List Effect :=
  if getWarningStatus s then (s, [])
  else
    let s1 := setWarningStatus true (setMeetingStatus false s)
    let tr0 := [Effect.broadcast Status.warning]
    if savePrev then
      let r1 := saveLightState cfg env s1
      if r1.2.2 then
        let r2 := setLightToWarningColor cfg env r1.1
        (r2.1, tr0 ++ r1.2.1 ++ r2.2.1)
      else (r1.1, tr0 ++ r1.2.1)
    else
      let r2 := setLightToWarningColor cfg env s1
      (r2.1, tr0 ++ r2.2.1)

/-- handleSetNotInMeeting from background.js. -/
def handleSetNotInMeeting (cfg : LocalState) (env : Env)
    (s : SessionState) : SessionState × List Effect :=
  if !getMeetingStatus s && !getWarningStatus s then (s, [])
  else
    let s1 := setWarningStatus false (setMeetingStatus false s)
    let r := restoreLightState cfg env s1
    (r.1, Effect.broadcast Status.noStatus :: r.2.1)

/-- The wire message sent from the Detector to the Coordinator
(MESSAGE_TYPES.STATUS). -/
structure StatusMessage where
  status : Status
  previousStatus : Option Status
deriving DecidableEq, Repr

/-- The STATUS branch of the chrome.runtime.onMessage listener in
background.js: compute the snapshot-warranted boolean from the declared
previousStatus and dispatch to the matching handler. -/
def handleStatusMessage (cfg : LocalState) (env : Env) (msg : StatusMessage)
    (s : SessionState) : SessionState × List Effect :=
  let savePrev := msg.previousStatus == some Status.noStatus ||
                  msg.previousStatus == none
  match msg.status with
  | Status.inMeeting => handleSetInMeeting cfg env savePrev s
  | Status.warning => handleSetWarning cfg env savePrev s
  | Status.noStatus => handleSetNotInMeeting cfg env s

/-! ## The content-script Detector (tri-state iteration) -/

/-- Detector-local state. -/
structure DetectorState where
  lastKnownStatus : Option Status
  isExtensionValid : Bool
deriving DecidableEq, Repr

/-- What the detector can observe of the page: visibility and the
presence of the call_end affordance (isInMeeting / isTabVisible). -/
structure PageEnv where
  visible : Bool
  callEndPresent : Bool
deriving DecidableEq, Repr

/-- checkAndNotify from the content script: recompute the status when
the tab is visible and emit one message when it changed. -/
def checkAndNotify (page : PageEnv) (d : DetectorState) :
    DetectorState × List StatusMessage :=
  if !d.isExtensionValid then (d, [])
  else if !page.visible then (d, [])
  else if page.callEndPresent then
    if d.lastKnownStatus != some Status.inMeeting then
      ({ d with lastKnownStatus := some Status.inMeeting },
       [{ status := Status.inMeeting, previousStatus := d.lastKnownStatus }])
    else (d, [])
  else
    if d.lastKnownStatus != some Status.warning then
      ({ d with lastKnownStatus := some Status.warning },
       [{ status := Status.warning, previousStatus := d.lastKnownStatus }])
    else (d, [])

/-- handleVisibilityChange from the content script: a tab becoming
visible triggers a recompute; becoming hidden demotes Warning to
NoStatus and leaves InMeeting alone. -/
def handleVisibilityChange (page : PageEnv) (d : DetectorState) :
    DetectorState × List StatusMessage :=
  if !d.isExtensionValid then (d, [])
  else if page.visible then checkAndNotify page d
  else
    if d.lastKnownStatus == some Status.warning then
      ({ d with lastKnownStatus := some Status.noStatus },
       [{ status := Status.noStatus, previousStatus := d.lastKnownStatus }])
    else (d, [])

/-! ## Helper predicates and concrete fixtures -/

/-- Whether an effect is a device write. -/
def Effect.isPut : Effect → Bool
  | devicePut _ _ => true
  | _ => false

/-- Whether an effect is a write of the previous-light-state snapshot. -/
def Effect.isSnapshotWrite : Effect → Bool
  | savePrev _ => true
  | _ => false

/-- Number of snapshot writes in a trace. -/
def countSnapshotWrites (tr : List Effect) : ℕ :=
  (tr.filter Effect.isSnapshotWrite).length

/-- A fully configured local store with the warning feature enabled. -/
def cfgOn : LocalState :=
  { bridgeIp := some "192.168.1.2", username := some "hueuser",
    lightId := some "1",
    meetingHue := none, meetingSat := none, meetingBri := none,
    warningColorEnabled := some true,
    warningHue := some 240, warningSat := some 50, warningBri := some 80 }

/-- The same configuration with the warning feature disabled. -/
def cfgOff : LocalState := { cfgOn with warningColorEnabled := some false }

/-- A fresh session store (all keys absent: NoStatus, no snapshot). -/
def emptySession : SessionState :=
  { currentMeetingStatus := none, currentWarningStatus := none,
    previousLightState := none }

/-- A sample pre-meeting light state. -/
def ls1 : LightState := { «on» := true, bri := 150, hue := 10000, sat := 200 }

/-- Device replies: the read returns `ls1`, writes succeed. -/
def envGetOk : Env := { getResult := some ls1, putResult := true }

/-- Device replies: the read fails (device unreachable), writes succeed. -/
def envGetFail : Env := { getResult := none, putResult := true }

/-- Device replies: the read returns `ls1`, writes fail. -/
def envPutFail : Env := { getResult := some ls1, putResult := false }

/-- A session store whose warning flag is stuck true with a live snapshot. -/
def stStuckWarning : SessionState :=
  { currentMeetingStatus := some false, currentWarningStatus := some true,
    previousLightState := some ls1 }

/-- A session store in a meeting with a live snapshot. -/
def stMeetingSnap : SessionState :=
  { currentMeetingStatus := some true, currentWarningStatus := some false,
    previousLightState := some ls1 }

/-- A demo client for the device-layer theorems. -/
def clientDemo : HueClient := { bridgeIp := "192.168.1.2", username := "hueuser" }

/-- A detector that last saw Warning, on a still-valid channel. -/
def dWarn : DetectorState :=
  { lastKnownStatus := some Status.warning, isExtensionValid := true }

/-- A detector that last saw InMeeting, on a still-valid channel. -/
def dMeet : DetectorState :=
  { lastKnownStatus := some Status.inMeeting, isExtensionValid := true }

/-- A hidden tab. -/
def pageHidden : PageEnv := { visible := false, callEndPresent := false }

/-! ## Claim theorems -/

/-- C7: the color conversions satisfy hueToApi 360 = 65535,
hueToApi 0 = 0, percentToApi 100 = 254, percentToApi 0 = 0; both are
monotone non-decreasing on the documented ranges (hue 0-360, percent
0-100); on those ranges the outputs stay within 0-65535 resp. 0-254;
and each conversion is the pure linear-rounding function
round(hue / 360 * 65535) resp. round(percent / 100 * 254). -/
theorem C7_color_conversion :
    hueToApi 360 = 65535 ∧ hueToApi 0 = 0 ∧
    percentToApi 100 = 254 ∧ percentToApi 0 = 0 ∧
    (∀ a b : ℚ, 0 ≤ a → a ≤ b → b ≤ 360 → hueToApi a ≤ hueToApi b) ∧
    (∀ a b : ℚ, 0 ≤ a → a ≤ b → b ≤ 100 → percentToApi a ≤ percentToApi b) ∧
    (∀ q : ℚ, 0 ≤ q → q ≤ 360 → 0 ≤ hueToApi q ∧ hueToApi q ≤ 65535) ∧
    (∀ q : ℚ, 0 ≤ q → q ≤ 100 → 0 ≤ percentToApi q ∧ percentToApi q ≤ 254) ∧
    (∀ q : ℚ, hueToApi q = ⌊q / 360 * 65535 + 1 / 2⌋) ∧
    (∀ q : ℚ, percentToApi q = ⌊q / 100 * 254 + 1 / 2⌋) := by
  refine ⟨?_, ?_, ?_, ?_, ?_, ?_, ?_, ?_, ?_, ?_⟩
  · rw [hueToApi, MAX_HUE, jsRound]; norm_num
  · rw [hueToApi, MAX_HUE, jsRound]; norm_num
  · rw [percentToApi, MAX_SAT, jsRound]; norm_num
  · rw [percentToApi, MAX_SAT, jsRound]; norm_num
  · intro a b _ hab _
    unfold hueToApi jsRound MAX_HUE
    exact Int.floor_le_floor (by linarith)
  · intro a b _ hab _
    unfold percentToApi jsRound MAX_SAT
    exact Int.floor_le_floor (by linarith)
  · intro q h0 h1
    unfold hueToApi jsRound MAX_HUE
    refine ⟨Int.le_floor.mpr (by push_cast; linarith), ?_⟩
    have hlt : ⌊q / 360 * 65535 + 1 / 2⌋ < 65536 :=
      Int.floor_lt.mpr (by push_cast; linarith)
    omega
  · intro q h0 h1
    unfold percentToApi jsRound MAX_SAT
    refine ⟨Int.le_floor.mpr (by push_cast; linarith), ?_⟩
    have hlt : ⌊q / 100 * 254 + 1 / 2⌋ < 255 :=
      Int.floor_lt.mpr (by push_cast; linarith)
    omega
  · intro q; rfl
  · intro q; rfl

/-- Witness for C7: the quantified parts evaluated at concrete inputs. -/
theorem C7_color_conversion_witness :
    hueToApi 10 ≤ hueToApi 20 ∧ percentToApi 30 ≤ percentToApi 40 ∧
    (0 ≤ hueToApi 12 ∧ hueToApi 12 ≤ 65535) ∧
    (0 ≤ percentToApi 7 ∧ percentToApi 7 ≤ 254) :=
  ⟨C7_color_conversion.2.2.2.2.1 10 20 (by norm_num) (by norm_num) (by norm_num),
   C7_color_conversion.2.2.2.2.2.1 30 40 (by norm_num) (by norm_num) (by norm_num),
   C7_color_conversion.2.2.2.2.2.2.1 12 (by norm_num) (by norm_num),
   C7_color_conversion.2.2.2.2.2.2.2.1 7 (by norm_num) (by norm_num)⟩

/-- C8: on a still-valid channel, a visibility change to hidden while
lastKnownStatus is Warning emits exactly one
Status(noStatus, previousStatus := warning) message and sets
lastKnownStatus to NoStatus; the same event while lastKnownStatus is
InMeeting emits no message and leaves the detector state unchanged. -/
theorem C8_visibility_demotion (page : PageEnv) (d : DetectorState)
    (hvalid : d.isExtensionValid = true) (hhidden : page.visible = false) :
    (d.lastKnownStatus = some Status.warning →
      handleVisibilityChange page d =
        ({ d with lastKnownStatus := some Status.noStatus },
         [{ status := Status.noStatus, previousStatus := some Status.warning }])) ∧
    (d.lastKnownStatus = some Status.inMeeting →
      handleVisibilityChange page d = (d, [])) := by
  constructor <;> intro hlast <;>
    simp [handleVisibilityChange, hvalid, hhidden, hlast]

/-- Witness for C8 at a concrete detector state and page. -/
theorem C8_visibility_demotion_witness :
    handleVisibilityChange pageHidden dWarn =
      ({ lastKnownStatus := some Status.noStatus, isExtensionValid := true },
       [{ status := Status.noStatus, previousStatus := some Status.warning }]) ∧
    handleVisibilityChange pageHidden dMeet = (dMeet, []) :=
  ⟨(C8_visibility_demotion pageHidden dWarn rfl rfl).1 rfl,
   (C8_visibility_demotion pageHidden dMeet rfl rfl).2 rfl⟩

/-- C10: restoreLightState clears the stored snapshot only when the
restoring device write succeeds; when the bridge is unconfigured the
call is a complete no-op, and when the write fails the session state —
snapshot included — is left unchanged, so a later attempt can still
restore the same saved state. -/
theorem C10_restore_clears_only_on_success (cfg : LocalState) (env : Env)
    (s : SessionState) :
    (getHueClient cfg = none → restoreLightState cfg env s = (s, [], false)) ∧
    (env.putResult = false → (restoreLightState cfg env s).1 = s) ∧
    (∀ hue s0, getHueClient cfg = some hue → s.previousLightState = some s0 →
      env.putResult = true →
      restoreLightState cfg env s =
        (clearPreviousLightState s,
         [Effect.devicePut hue.lightId s0, Effect.clearPrev], true)) := by
  refine ⟨?_, ?_, ?_⟩
  · intro hnone; simp [restoreLightState, hnone]
  · intro hput
    cases hcl : getHueClient cfg with
    | none => simp [restoreLightState, hcl]
    | some hue =>
      cases hprev : s.previousLightState with
      | none => simp [restoreLightState, hcl, getPreviousLightState, hprev]
      | some p => simp [restoreLightState, hcl, getPreviousLightState, hprev, hput]
  · intro hue s0 hcl hprev hput
    simp [restoreLightState, hcl, getPreviousLightState, hprev, hput]

/-- Witness for C10: a failed restore keeps the snapshot, a successful
one clears it. -/
theorem C10_restore_clears_only_on_success_witness :
    (restoreLightState cfgOn envPutFail stMeetingSnap).1 = stMeetingSnap ∧
    restoreLightState cfgOn envGetOk stMeetingSnap =
      (clearPreviousLightState stMeetingSnap,
       [Effect.devicePut "1" ls1, Effect.clearPrev], true) :=
  ⟨(C10_restore_clears_only_on_success cfgOn envPutFail stMeetingSnap).2.1 rfl,
   (C10_restore_clears_only_on_success cfgOn envGetOk stMeetingSnap).2.2
     { client := clientDemo, lightId := "1" } ls1 rfl rfl rfl⟩

/-- C9: an incoming Warning message while the persisted flags encode
InMeeting is accepted: the Coordinator clears the meeting flag, sets the
warning flag, broadcasts Warning and pushes the warning color, with no
snapshot taken (previousStatus is InMeeting, so no snapshot is
warranted) — a demotion the spec's transition table does not list. -/
theorem C9_meeting_to_warning_demotion (cfg : LocalState) (env : Env)
    (s : SessionState) (hue : HueRef)
    (hcl : getHueClient cfg = some hue)
    (_hm : getMeetingStatus s = true) (hw : getWarningStatus s = false) :
    getMeetingStatus (handleStatusMessage cfg env
      { status := Status.warning, previousStatus := some Status.inMeeting } s).1 = false ∧
    getWarningStatus (handleStatusMessage cfg env
      { status := Status.warning, previousStatus := some Status.inMeeting } s).1 = true ∧
    (handleStatusMessage cfg env
      { status := Status.warning, previousStatus := some Status.inMeeting } s).1.previousLightState
      = s.previousLightState ∧
    (handleStatusMessage cfg env
      { status := Status.warning, previousStatus := some Status.inMeeting } s).2 =
      [Effect.broadcast Status.warning,
       Effect.devicePut hue.lightId (warningApiState cfg)] := by
  have hw' : s.currentWarningStatus.getD false = false := hw
  simp [handleStatusMessage, handleSetWarning, hw', setLightToWarningColor, hcl,
        getMeetingStatus, getWarningStatus, setMeetingStatus, setWarningStatus]

/-- Witness for C9 at a concrete in-meeting state. -/
theorem C9_meeting_to_warning_demotion_witness :
    getWarningStatus (handleStatusMessage cfgOn envGetOk
      { status := Status.warning, previousStatus := some Status.inMeeting }
      stMeetingSnap).1 = true ∧
    (handleStatusMessage cfgOn envGetOk
      { status := Status.warning, previousStatus := some Status.inMeeting }
      stMeetingSnap).2 =
      [Effect.broadcast Status.warning,
       Effect.devicePut "1" (warningApiState cfgOn)] :=
  ⟨(C9_meeting_to_warning_demotion cfgOn envGetOk stMeetingSnap
      { client := clientDemo, lightId := "1" } rfl rfl rfl).2.1,
   (C9_meeting_to_warning_demotion cfgOn envGetOk stMeetingSnap
      { client := clientDemo, lightId := "1" } rfl rfl rfl).2.2.2⟩

/-- C1 counterexample: with a configured bridge, NoStatus session state
and an unreachable device, the message Status(inMeeting, previousStatus
null) warrants a snapshot, saveLightState fails, and — contrary to the
claim — the meeting color is NOT pushed: the trace is just the broadcast
and the failed read, with no device write at all. -/
theorem C1_counterexample :
    (handleStatusMessage cfgOn envGetFail
      { status := Status.inMeeting, previousStatus := none } emptySession).2 =
      [Effect.broadcast Status.inMeeting, Effect.deviceGet "1"] ∧
    ((handleStatusMessage cfgOn envGetFail
      { status := Status.inMeeting, previousStatus := none } emptySession).2.all
        fun e => !e.isPut) = true :=
  ⟨rfl, rfl⟩

/-- C1 (amended): when an incoming message warrants a snapshot and the
snapshot read fails, the configured color is NOT pushed (the trace ends
at the failed read); the color is pushed only when the snapshot
succeeds, and then only after the read of the old light state has
completed (the devicePut follows the deviceGet and the snapshot write in
the trace), for both the in-meeting and the warning handler. -/
theorem C1_push_only_after_snapshot (cfg : LocalState) (env : Env)
    (s : SessionState) (hue : HueRef) (hcl : getHueClient cfg = some hue) :
    (getMeetingStatus s = false → env.getResult = none →
      (handleSetInMeeting cfg env true s).2 =
        [Effect.broadcast Status.inMeeting, Effect.deviceGet hue.lightId]) ∧
    (∀ ls, getMeetingStatus s = false → env.getResult = some ls →
      (handleSetInMeeting cfg env true s).2 =
        [Effect.broadcast Status.inMeeting, Effect.deviceGet hue.lightId,
         Effect.savePrev ls, Effect.devicePut hue.lightId (meetingApiState cfg)]) ∧
    (getWarningStatus s = false → env.getResult = none →
      (handleSetWarning cfg env true s).2 =
        [Effect.broadcast Status.warning, Effect.deviceGet hue.lightId]) ∧
    (∀ ls, getWarningStatus s = false → env.getResult = some ls →
      (handleSetWarning cfg env true s).2 =
        [Effect.broadcast Status.warning, Effect.deviceGet hue.lightId,
         Effect.savePrev ls, Effect.devicePut hue.lightId (warningApiState cfg)]) := by
  refine ⟨?_, ?_, ?_, ?_⟩
  · intro hm hget
    have hm' : s.currentMeetingStatus.getD false = false := hm
    simp [handleSetInMeeting, hm', saveLightState, hcl, hget, getMeetingStatus]
  · intro ls hm hget
    have hm' : s.currentMeetingStatus.getD false = false := hm
    simp [handleSetInMeeting, hm', saveLightState, hcl, hget, getMeetingStatus,
          setLightToMeetingColor]
  · intro hw hget
    have hw' : s.currentWarningStatus.getD false = false := hw
    simp [handleSetWarning, hw', saveLightState, hcl, hget, getWarningStatus]
  · intro ls hw hget
    have hw' : s.currentWarningStatus.getD false = false := hw
    simp [handleSetWarning, hw', saveLightState, hcl, hget, getWarningStatus,
          setLightToWarningColor]

/-- Witness for C1 (amended) at concrete inputs: failed read means no
push; successful read means the push follows the read. -/
theorem C1_push_only_after_snapshot_witness :
    (handleSetInMeeting cfgOn envGetFail true emptySession).2 =
      [Effect.broadcast Status.inMeeting, Effect.deviceGet "1"] ∧
    (handleSetInMeeting cfgOn envGetOk true emptySession).2 =
      [Effect.broadcast Status.inMeeting, Effect.deviceGet "1",
       Effect.savePrev ls1, Effect.devicePut "1" (meetingApiState cfgOn)] :=
  ⟨(C1_push_only_after_snapshot cfgOn envGetFail emptySession
      { client := clientDemo, lightId := "1" } rfl).1 rfl rfl,
   (C1_push_only_after_snapshot cfgOn envGetOk emptySession
      { client := clientDemo, lightId := "1" } rfl).2.1 ls1 rfl rfl⟩

/-- C2 counterexample: with the warning feature disabled, an incoming
Warning message from NoStatus is still fully processed — the warning
flag is set, a snapshot is written, Warning is broadcast and the warning
color is pushed to the light — contrary to the claim that the
transition happens only if the flag is true. -/
theorem C2_counterexample :
    getWarningColorEnabled cfgOff = false ∧
    handleStatusMessage cfgOff envGetOk
        { status := Status.warning, previousStatus := some Status.noStatus }
        emptySession =
      ({ currentMeetingStatus := some false, currentWarningStatus := some true,
         previousLightState := some ls1 },
       [Effect.broadcast Status.warning, Effect.deviceGet "1",
        Effect.savePrev ls1, Effect.devicePut "1" (warningApiState cfgOff)]) :=
  ⟨rfl, rfl⟩

/-- C2 (amended): an incoming Warning message from a NoStatus session
state is processed regardless of the "warning color enabled" flag: the
warning flag is set, Warning is broadcast, the light state is
snapshotted per the snapshot rule and WarningColor is pushed; the flag
only gates whether the composed canonical status (getStatus) reports
Warning or keeps reporting NoStatus. -/
theorem C2_warning_transition_ignores_flag (cfg : LocalState) (env : Env)
    (s : SessionState) (p : Option Status) (hue : HueRef) (ls : LightState)
    (hcl : getHueClient cfg = some hue)
    (hw : getWarningStatus s = false)
    (hp : p = none ∨ p = some Status.noStatus)
    (hget : env.getResult = some ls) :
    getMeetingStatus (handleStatusMessage cfg env
      { status := Status.warning, previousStatus := p } s).1 = false ∧
    getWarningStatus (handleStatusMessage cfg env
      { status := Status.warning, previousStatus := p } s).1 = true ∧
    (handleStatusMessage cfg env
      { status := Status.warning, previousStatus := p } s).1.previousLightState = some ls ∧
    (handleStatusMessage cfg env
      { status := Status.warning, previousStatus := p } s).2 =
      [Effect.broadcast Status.warning, Effect.deviceGet hue.lightId,
       Effect.savePrev ls, Effect.devicePut hue.lightId (warningApiState cfg)] ∧
    getStatus cfg (handleStatusMessage cfg env
      { status := Status.warning, previousStatus := p } s).1 =
      (if getWarningColorEnabled cfg then Status.warning else Status.noStatus) := by
  have hw' : s.currentWarningStatus.getD false = false := hw
  rcases hp with hp | hp <;> subst hp <;>
    simp [handleStatusMessage, handleSetWarning, hw', saveLightState, hcl, hget,
          setLightToWarningColor, getMeetingStatus, getWarningStatus, getStatus,
          setMeetingStatus, setWarningStatus, savePreviousLightState]

/-- Witness for C2 (amended) with the flag disabled: the transition is
processed yet getStatus still reports NoStatus. -/
theorem C2_warning_transition_ignores_flag_witness :
    getWarningStatus (handleStatusMessage cfgOff envGetOk
      { status := Status.warning, previousStatus := some Status.noStatus }
      emptySession).1 = true ∧
    getStatus cfgOff (handleStatusMessage cfgOff envGetOk
      { status := Status.warning, previousStatus := some Status.noStatus }
      emptySession).1 = (if getWarningColorEnabled cfgOff then Status.warning
                         else Status.noStatus) :=
  ⟨(C2_warning_transition_ignores_flag cfgOff envGetOk emptySession
      (some Status.noStatus) { client := clientDemo, lightId := "1" } ls1
      rfl rfl (Or.inr rfl) rfl).2.1,
   (C2_warning_transition_ignores_flag cfgOff envGetOk emptySession
      (some Status.noStatus) { client := clientDemo, lightId := "1" } ls1
      rfl rfl (Or.inr rfl) rfl).2.2.2.2⟩

/-- C3: from a NoStatus session state with no live snapshot, processing
Status(warning, previousStatus noStatus-or-null) followed by
Status(inMeeting, previousStatus warning) performs exactly one snapshot
write — on the first transition — and the snapshot afterwards is still
the state captured there (never overwritten during the excursion). -/
theorem C3_snapshot_once (cfg : LocalState) (env1 env2 : Env)
    (s : SessionState) (p : Option Status) (hue : HueRef) (ls : LightState)
    (hcl : getHueClient cfg = some hue)
    (_hm : getMeetingStatus s = false) (hw : getWarningStatus s = false)
    (hp : p = none ∨ p = some Status.noStatus)
    (hget : env1.getResult = some ls) :
    countSnapshotWrites
      ((handleStatusMessage cfg env1
          { status := Status.warning, previousStatus := p } s).2 ++
        (handleStatusMessage cfg env2
          { status := Status.inMeeting, previousStatus := some Status.warning }
          (handleStatusMessage cfg env1
            { status := Status.warning, previousStatus := p } s).1).2) = 1 ∧
    (handleStatusMessage cfg env2
      { status := Status.inMeeting, previousStatus := some Status.warning }
      (handleStatusMessage cfg env1
        { status := Status.warning, previousStatus := p } s).1).1.previousLightState
      = some ls := by
  have hw' : s.currentWarningStatus.getD false = false := hw
  rcases hp with hp | hp <;> subst hp <;>
    simp [handleStatusMessage, handleSetWarning, handleSetInMeeting, hw',
          saveLightState, hcl, hget, setLightToWarningColor,
          setLightToMeetingColor, getMeetingStatus, getWarningStatus,
          setMeetingStatus, setWarningStatus, savePreviousLightState,
          countSnapshotWrites, Effect.isSnapshotWrite]

/-- Witness for C3 at concrete inputs. -/
theorem C3_snapshot_once_witness :
    countSnapshotWrites
      ((handleStatusMessage cfgOn envGetOk
          { status := Status.warning, previousStatus := none } emptySession).2 ++
        (handleStatusMessage cfgOn envGetFail
          { status := Status.inMeeting, previousStatus := some Status.warning }
          (handleStatusMessage cfgOn envGetOk
            { status := Status.warning, previousStatus := none } emptySession).1).2) = 1 :=
  (C3_snapshot_once cfgOn envGetOk envGetFail emptySession none
    { client := clientDemo, lightId := "1" } ls1 rfl rfl rfl (Or.inl rfl) rfl).1

/-- C4: an incoming NoStatus while the meeting or warning flag is set
restores exactly the saved snapshot and leaves no snapshot behind (when
a snapshot is live and the write succeeds), and performs zero device
reads or writes — while still clearing the flags and broadcasting
NoStatus — when no snapshot is present. -/
theorem C4_restore_then_clear (cfg : LocalState) (env : Env)
    (s : SessionState) :
    (∀ hue s0, getHueClient cfg = some hue → s.previousLightState = some s0 →
      env.putResult = true →
      (getMeetingStatus s = true ∨ getWarningStatus s = true) →
      handleSetNotInMeeting cfg env s =
        ({ currentMeetingStatus := some false, currentWarningStatus := some false,
           previousLightState := none },
         [Effect.broadcast Status.noStatus, Effect.devicePut hue.lightId s0,
          Effect.clearPrev])) ∧
    (s.previousLightState = none →
      (getMeetingStatus s = true ∨ getWarningStatus s = true) →
      handleSetNotInMeeting cfg env s =
        ({ currentMeetingStatus := some false, currentWarningStatus := some false,
           previousLightState := none },
         [Effect.broadcast Status.noStatus])) := by
  constructor
  · intro hue s0 hcl hprev hput hflag
    have hguard : (!getMeetingStatus s && !getWarningStatus s) = false := by
      rcases hflag with h | h <;> simp [h]
    simp [handleSetNotInMeeting, hguard, restoreLightState, hcl,
          getPreviousLightState, setMeetingStatus, setWarningStatus, hprev, hput,
          clearPreviousLightState]
  · intro hprev hflag
    have hguard : (!getMeetingStatus s && !getWarningStatus s) = false := by
      rcases hflag with h | h <;> simp [h]
    cases hcl : getHueClient cfg with
    | none =>
      simp [handleSetNotInMeeting, hguard, restoreLightState, hcl,
            setMeetingStatus, setWarningStatus, hprev]
    | some hue =>
      simp [handleSetNotInMeeting, hguard, restoreLightState, hcl,
            getPreviousLightState, setMeetingStatus, setWarningStatus, hprev]

/-- Witness for C4: restore-then-clear from a meeting with a snapshot,
and broadcast-only from a stuck-warning state without one. -/
theorem C4_restore_then_clear_witness :
    handleSetNotInMeeting cfgOn envGetOk stMeetingSnap =
      ({ currentMeetingStatus := some false, currentWarningStatus := some false,
         previousLightState := none },
       [Effect.broadcast Status.noStatus, Effect.devicePut "1" ls1,
        Effect.clearPrev]) ∧
    handleSetNotInMeeting cfgOn envGetOk
        { currentMeetingStatus := some true, currentWarningStatus := some false,
          previousLightState := none } =
      ({ currentMeetingStatus := some false, currentWarningStatus := some false,
         previousLightState := none },
       [Effect.broadcast Status.noStatus]) :=
  ⟨(C4_restore_then_clear cfgOn envGetOk stMeetingSnap).1
      { client := clientDemo, lightId := "1" } ls1 rfl rfl rfl (Or.inl rfl),
   (C4_restore_then_clear cfgOn envGetOk
      { currentMeetingStatus := some true, currentWarningStatus := some false,
        previousLightState := none }).2 rfl (Or.inl rfl)⟩

/-- C5 counterexample: with the warning feature disabled and the warning
flag stuck true, getStatus already reports NoStatus, yet delivering
Status(noStatus, previousStatus noStatus) mutates the flags, clears the
snapshot and issues a device write — the handler is not a no-op while
the canonical (composed) status is unchanged. -/
theorem C5_counterexample :
    getStatus cfgOff stStuckWarning = Status.noStatus ∧
    handleStatusMessage cfgOff envGetOk
        { status := Status.noStatus, previousStatus := some Status.noStatus }
        stStuckWarning =
      ({ currentMeetingStatus := some false, currentWarningStatus := some false,
         previousLightState := none },
       [Effect.broadcast Status.noStatus, Effect.devicePut "1" ls1,
        Effect.clearPrev]) :=
  ⟨rfl, rfl⟩

/-- C5 (amended): delivering Status(X, previousStatus X) is a complete
no-op — state unchanged, no effects, hence no snapshot mutation, device
I/O or broadcast — whenever the persisted boolean flags themselves
already encode X: both flags false for NoStatus, warning flag true for
Warning, meeting flag true for InMeeting.  (The composed canonical
status can report NoStatus while the warning flag is stuck true with the
feature disabled; there the NoStatus handler is not a no-op.) -/
theorem C5_flagwise_idempotence (cfg : LocalState) (env : Env)
    (s : SessionState) (msg : StatusMessage) :
    (msg.status = Status.noStatus → getMeetingStatus s = false →
      getWarningStatus s = false → handleStatusMessage cfg env msg s = (s, [])) ∧
    (msg.status = Status.warning → getWarningStatus s = true →
      handleStatusMessage cfg env msg s = (s, [])) ∧
    (msg.status = Status.inMeeting → getMeetingStatus s = true →
      handleStatusMessage cfg env msg s = (s, [])) := by
  refine ⟨?_, ?_, ?_⟩
  · intro hst hm hw
    simp [handleStatusMessage, hst, handleSetNotInMeeting, hm, hw]
  · intro hst hw
    simp [handleStatusMessage, hst, handleSetWarning, hw]
  · intro hst hm
    simp [handleStatusMessage, hst, handleSetInMeeting, hm]

/-- Witness for C5 (amended): duplicate messages at matching flag states
are no-ops for all three statuses. -/
theorem C5_flagwise_idempotence_witness :
    handleStatusMessage cfgOn envGetOk
      { status := Status.noStatus, previousStatus := some Status.noStatus }
      emptySession = (emptySession, []) ∧
    handleStatusMessage cfgOn envGetOk
      { status := Status.warning, previousStatus := some Status.warning }
      stStuckWarning = (stStuckWarning, []) ∧
    handleStatusMessage cfgOn envGetOk
      { status := Status.inMeeting, previousStatus := some Status.inMeeting }
      stMeetingSnap = (stMeetingSnap, []) :=
  ⟨(C5_flagwise_idempotence cfgOn envGetOk emptySession
      { status := Status.noStatus, previousStatus := some Status.noStatus }).1
      rfl rfl rfl,
   (C5_flagwise_idempotence cfgOn envGetOk stStuckWarning
      { status := Status.warning, previousStatus := some Status.warning }).2.1
      rfl rfl,
   (C5_flagwise_idempotence cfgOn envGetOk stMeetingSnap
      { status := Status.inMeeting, previousStatus := some Status.inMeeting }).2.2
      rfl rfl⟩

/-- C6: in the device client, network-level fetch failures are retried
up to 3 attempts with exponential backoff delays of 1000ms then 2000ms,
after which the failure surfaces as null (getLightState) resp. false
(setLightState); an API-level error payload in the response body — an
error object in the get response, or an error entry in the put response
array — is never retried: the first fetch attempt is the only one, with
no backoff, and the result is immediately null resp. false. -/
theorem C6_retry_policy (c : HueClient) (lightId : String)
    (hc : c.isConfigured = true) (hl : lightId ≠ "") :
    (∀ gfetch : ℕ → FetchOutcome GetPayload,
      (∀ k, k < MAX_RETRIES → gfetch k = FetchOutcome.networkError) →
      c.getLightState lightId gfetch = (none, 3, [1000, 2000])) ∧
    (∀ pfetch : ℕ → FetchOutcome PutPayload,
      (∀ k, k < MAX_RETRIES → pfetch k = FetchOutcome.networkError) →
      c.setLightState lightId pfetch = (false, 3, [1000, 2000])) ∧
    (∀ (gfetch : ℕ → FetchOutcome GetPayload) (pl : GetPayload),
      gfetch 0 = FetchOutcome.response pl → (pl.hasError = true ∨ pl.state = none) →
      c.getLightState lightId gfetch = (none, 1, [])) ∧
    (∀ pfetch : ℕ → FetchOutcome PutPayload,
      pfetch 0 = FetchOutcome.response PutPayload.errorArray →
      c.setLightState lightId pfetch = (false, 1, [])) := by
  have hl' : (lightId == "") = false := by simpa using hl
  refine ⟨?_, ?_, ?_, ?_⟩
  · intro gfetch hfail
    have h0 := hfail 0 (by norm_num [MAX_RETRIES])
    have h1 := hfail 1 (by norm_num [MAX_RETRIES])
    have h2 := hfail 2 (by norm_num [MAX_RETRIES])
    simp [HueClient.getLightState, hc, hl', fetchWithRetry, MAX_RETRIES,
          List.range_succ, runAttempts, h0, h1, h2, BASE_DELAY_MS]
  · intro pfetch hfail
    have h0 := hfail 0 (by norm_num [MAX_RETRIES])
    have h1 := hfail 1 (by norm_num [MAX_RETRIES])
    have h2 := hfail 2 (by norm_num [MAX_RETRIES])
    simp [HueClient.setLightState, hc, hl', fetchWithRetry, MAX_RETRIES,
          List.range_succ, runAttempts, h0, h1, h2, BASE_DELAY_MS]
  · intro gfetch pl h0 herr
    rcases herr with herr | herr <;>
      simp [HueClient.getLightState, hc, hl', fetchWithRetry, MAX_RETRIES,
            List.range_succ, runAttempts, h0, herr]
  · intro pfetch h0
    simp [HueClient.setLightState, hc, hl', fetchWithRetry, MAX_RETRIES,
          List.range_succ, runAttempts, h0]

/-- Witness for C6 at the demo client: an always-failing network yields
3 attempts with delays 1s and 2s, and an immediate API error array
yields a single attempt with no backoff. -/
theorem C6_retry_policy_witness :
    clientDemo.getLightState "1" (fun _ => FetchOutcome.networkError) =
      (none, 3, [1000, 2000]) ∧
    clientDemo.setLightState "1"
        (fun _ => FetchOutcome.response PutPayload.errorArray) = (false, 1, []) :=
  ⟨(C6_retry_policy clientDemo "1" rfl (by decide)).1 _ (fun _ _ => rfl),
   (C6_retry_policy clientDemo "1" rfl (by decide)).2.2.2 _ rfl⟩

end Meeting
